import Mathlib

/-
Shallow embedding of the token-lifecycle and retry core of the
spotify-playback-transfer worker.

Embedded source:
  storage.ts     : Tokens, readTokens, writeTokens (KV boundary)
  spotify client : exchangeCodeForTokens, refreshAccessToken,
                   getAccessToken, spotifyFetch
  index.ts       : shouldRetryTransfer, getRetryDelayMs, retryTransfer

Modelling conventions:
  * I/O outcomes (KV reads, HTTP responses) are explicit parameters; a
    `none` response models a thrown fetch (network error).
  * JavaScript truthiness on the fields this code tests is explicit:
    a string is falsy exactly when it is empty, a number exactly when it
    is 0, and a missing (undefined) field is falsy; `a || b` on such
    values is the jsOr* helpers below.
  * The Retry-After header string is represented by the outcome of the
    two JavaScript parses the code applies to it: `num` is the value of
    Number(s) when that is not NaN (restricted to integral values, which
    covers every integer-seconds header), `date` the epoch-millisecond
    value of Date.parse(s) when that is not NaN.  An absent or empty
    header (falsy in the `if (retryAfter)` guard) is `none`.
  * Unix times are Nat seconds (`now`) except the millisecond clock
    `nowMs : Int` used by the Retry-After date branch.
-/

deriving instance DecidableEq for Except

namespace SpotifyTransfer

/-- Credential record stored in KV (storage.ts, interface Tokens). -/
structure Tokens where
  access_token : String
  refresh_token : String
  expires_at : Nat
  deriving DecidableEq, Repr

/-- Raw record as parsed from the KV blob: any of the three fields may be
missing (undefined) in a malformed record. -/
structure RawTokens where
  access_token : Option String
  refresh_token : Option String
  expires_at : Option Nat
  deriving DecidableEq, Repr

/-- JavaScript truthiness of a possibly-missing string field. -/
def jsTruthyStr : Option String → Bool
  | none => false
  | some s => !(s = "")

/-- JavaScript truthiness of a possibly-missing numeric field. -/
def jsTruthyNat : Option Nat → Bool
  | none => false
  | some n => !(n = 0)

/-- readTokens (storage.ts 25-45).  `data` is the parsed KV blob: `none`
covers an absent key, an empty blob, a KV error and a JSON.parse failure
(every catch path returns null).  The structure check `if (!access_token ||
!refresh_token || !expires_at) return null` is JavaScript truthiness. -/
def readTokens (data : Option RawTokens) : Option Tokens :=
  match data with
  | none => none
  | some r =>
    if jsTruthyStr r.access_token && jsTruthyStr r.refresh_token &&
        jsTruthyNat r.expires_at then
      some { access_token := r.access_token.getD ""
             refresh_token := r.refresh_token.getD ""
             expires_at := r.expires_at.getD 0 }
    else
      none

/-- writeTokens (storage.ts 50-63).  Validates truthiness of the three
fields before the KV put; `putOk` models whether the put itself succeeds.
Both the validation throw and a KV error surface as the same rethrown
error.  On success the raw record actually stored is returned. -/
def writeTokens (tokens : Tokens) (putOk : Bool) : Except String RawTokens :=
  if tokens.access_token = "" || tokens.refresh_token = "" ||
      tokens.expires_at = 0 then
    .error "Failed to save tokens"
  else if putOk then
    .ok { access_token := some tokens.access_token
          refresh_token := some tokens.refresh_token
          expires_at := some tokens.expires_at }
  else
    .error "Failed to save tokens"

/-- JavaScript `a || b` where `a` is a possibly-missing string. -/
def jsOrStr (a : Option String) (b : String) : String :=
  match a with
  | none => b
  | some s => if s = "" then b else s

/-- JavaScript `a || b` where `a` is a possibly-missing number. -/
def jsOrNat (a : Option Nat) (b : Nat) : Nat :=
  match a with
  | none => b
  | some n => if n = 0 then b else n

/-- JSON body of a successful or failed token-endpoint response to a
refresh request, together with the HTTP `ok` flag. -/
structure RefreshResponse where
  ok : Bool
  access_token : String
  refresh_token : Option String
  expires_in : Option Nat
  deriving DecidableEq, Repr

/-- JSON body of a token-endpoint response to the code exchange. -/
structure ExchangeResponse where
  ok : Bool
  access_token : String
  refresh_token : String
  expires_in : Option Nat
  deriving DecidableEq, Repr

/-- refreshAccessToken (spotify client 74-116).  `resp = none` models the
fetch itself throwing; `currentTokens` is the readTokens result of the
re-read the function performs to recover the stored refresh token. -/
def refreshAccessToken (clientId clientSecret refreshToken : String)
    (resp : Option RefreshResponse) (currentTokens : Option Tokens)
    (now : Nat) : Except String Tokens :=
  if clientId = "" || clientSecret = "" then
    .error "Spotify client credentials not configured"
  else
    match resp with
    | none => .error "fetch failed"
    | some data =>
      if !data.ok then
        .error "Token refresh failed"
      else
        .ok { access_token := data.access_token
              refresh_token :=
                jsOrStr data.refresh_token
                  (jsOrStr (currentTokens.map Tokens.refresh_token) refreshToken)
              expires_at := now + jsOrNat data.expires_in 3600 }

/-- exchangeCodeForTokens (spotify client 29-69).  Only the credential it
constructs matters here; the request shape (code, redirect URI) does not
influence the result record. -/
def exchangeCodeForTokens (clientId clientSecret : String)
    (resp : Option ExchangeResponse) (now : Nat) : Except String Tokens :=
  if clientId = "" || clientSecret = "" then
    .error "Spotify client credentials not configured"
  else
    match resp with
    | none => .error "fetch failed"
    | some data =>
      if !data.ok then
        .error "Token exchange failed"
      else
        .ok { access_token := data.access_token
              refresh_token := data.refresh_token
              expires_at := now + jsOrNat data.expires_in 3600 }

/-- Observable outcome of one getAccessToken call: the returned token (or
null), whether refreshAccessToken was invoked, and the record handed to a
successful writeTokens (none when nothing was persisted). -/
structure GAResult where
  result : Option String
  refreshInvoked : Bool
  written : Option Tokens
  deriving DecidableEq, Repr

/-- getAccessToken (spotify client 122-147).  `stored` is the readTokens
result; the store is taken as unchanged between this read and the re-read
inside refreshAccessToken (one in-flight call, no concurrent writer).
`resp` is the token-endpoint outcome and `putOk` whether the KV put of the
refreshed record succeeds; a writeTokens throw is caught by the same catch
that handles a refresh failure. -/
def getAccessToken (stored : Option Tokens) (now : Nat)
    (clientId clientSecret : String) (resp : Option RefreshResponse)
    (putOk : Bool) : GAResult :=
  match stored with
  | none => { result := none, refreshInvoked := false, written := none }
  | some tokens =>
    if now + 60 < tokens.expires_at then
      { result := some tokens.access_token, refreshInvoked := false
        written := none }
    else
      match refreshAccessToken clientId clientSecret tokens.refresh_token
          resp stored now with
      | .error _ =>
        { result := none, refreshInvoked := true, written := none }
      | .ok newTokens =>
        match writeTokens newTokens putOk with
        | .error _ =>
          { result := none, refreshInvoked := true, written := none }
        | .ok _ =>
          { result := some newTokens.access_token, refreshInvoked := true
            written := some newTokens }

/-- Outcome of the two JavaScript parses applied to a Retry-After header
string s: `num` is Number(s) when not NaN, `date` is Date.parse(s) in epoch
milliseconds when not NaN. -/
structure RAHeader where
  num : Option Int
  date : Option Int
  deriving DecidableEq, Repr

/-- HTTP response as this core observes it: status and the Retry-After
header (`none` when the header is absent or empty, which the guard
`if (retryAfter)` treats alike). -/
structure Response where
  status : Nat
  retryAfter : Option RAHeader
  deriving DecidableEq, Repr

/-- Fetch Response.ok: status in the 200-299 range. -/
def Response.ok (r : Response) : Bool :=
  decide (200 ≤ r.status) && decide (r.status < 300)

/-- Observable outcome of a spotifyFetch call: the returned response (or
the thrown no-token error), how many refreshAccessToken invocations the
401 handler made, how many extra fetches of the original request it
issued, and the record a successful writeTokens persisted. -/
structure SFResult where
  result : Except String Response
  refreshCount : Nat
  retryCount : Nat
  written : Option Tokens
  deriving Repr

/-- spotifyFetch (spotify client 153-205).  `accessToken` is the outcome of
the getAccessToken call the function starts with, `first` the response of
the first fetch, `storedAt401` the readTokens result inside the 401
branch, `resp` the token-endpoint outcome of the reactive refresh, `putOk`
whether its KV put succeeds and `retryResp` the response of the single
retry.  A writeTokens throw lands in the same catch as a refresh failure
and returns the original response. -/
def spotifyFetch (accessToken : Option String) (first : Response)
    (storedAt401 : Option Tokens) (now : Nat)
    (clientId clientSecret : String) (resp : Option RefreshResponse)
    (putOk : Bool) (retryResp : Response) : SFResult :=
  match accessToken with
  | none =>
    { result := .error "No access token available", refreshCount := 0
      retryCount := 0, written := none }
  | some _ =>
    if first.status = 401 then
      match storedAt401 with
      | none =>
        { result := .ok first, refreshCount := 0, retryCount := 0
          written := none }
      | some tokens =>
        match refreshAccessToken clientId clientSecret tokens.refresh_token
            resp storedAt401 now with
        | .error _ =>
          { result := .ok first, refreshCount := 1, retryCount := 0
            written := none }
        | .ok newTokens =>
          match writeTokens newTokens putOk with
          | .error _ =>
            { result := .ok first, refreshCount := 1, retryCount := 0
              written := none }
          | .ok _ =>
            { result := .ok retryResp, refreshCount := 1, retryCount := 1
              written := some newTokens }
    else
      { result := .ok first, refreshCount := 0, retryCount := 0
        written := none }

def TRANSFER_RETRY_ATTEMPTS : Nat := 3

def TRANSFER_RETRY_BASE_DELAY_MS : Int := 350

def TRANSFER_RETRY_MAX_DELAY_MS : Int := 2000

/-- shouldRetryTransfer (index.ts 83-88). -/
def shouldRetryTransfer (response : Response) : Bool :=
  if response.status = 404 || response.status = 429 then
    true
  else
    decide (500 ≤ response.status) && decide (response.status ≤ 504)

/-- getRetryDelayMs (index.ts 90-110).  `nowMs` is Date.now() at the time
of the call, used only by the Retry-After date branch. -/
def getRetryDelayMs (attempt : Nat) (response : Option Response)
    (nowMs : Int) : Int :=
  let fallback :=
    min (TRANSFER_RETRY_BASE_DELAY_MS * 2 ^ (attempt - 1))
      TRANSFER_RETRY_MAX_DELAY_MS
  match response with
  | none => fallback
  | some r =>
    if r.status = 429 then
      match r.retryAfter with
      | none => fallback
      | some h =>
        match h.num with
        | some seconds => min (seconds * 1000) TRANSFER_RETRY_MAX_DELAY_MS
        | none =>
          match h.date with
          | none => fallback
          | some retryDate =>
            let delta := retryDate - nowMs
            if 0 < delta then min delta TRANSFER_RETRY_MAX_DELAY_MS
            else fallback
    else
      fallback

/-- Outcome of one makeRequest invocation: a response, or a thrown error. -/
inductive Attempt where
  | resp : Response → Attempt
  | err : String → Attempt
  deriving DecidableEq, Repr

/-- Observable outcome of a retryTransfer run: the returned response or
propagated error, the number of makeRequest invocations, and the backoff
delays slept between attempts (in order). -/
structure RTState where
  result : Except String Response
  calls : Nat
  delays : List Int
  deriving Repr

/-- Loop body of retryTransfer (index.ts 112-138).  `f n` is the outcome of
the n-th makeRequest invocation; the first argument counts the attempts
still allowed, the current one included, so along the run it is
TRANSFER_RETRY_ATTEMPTS + 1 - attempt and the loop guard
`attempt === TRANSFER_RETRY_ATTEMPTS` is `fuel = 0` in the `fuel + 1`
case.  The fuel-0 base case is the line after the loop (unreachable from
the initial call, kept for faithfulness). -/
def retryTransferGo (f : Nat → Attempt) (nowMs : Int) :
    Nat → Nat → Option Response → RTState
  | 0, _, last =>
    { result := .ok (last.getD { status := 500, retryAfter := none })
      calls := 0, delays := [] }
  | fuel + 1, attempt, last =>
    match f attempt with
    | .resp r =>
      if r.ok || !shouldRetryTransfer r || fuel = 0 then
        { result := .ok r, calls := 1, delays := [] }
      else
        let d := getRetryDelayMs attempt (some r) nowMs
        let rest := retryTransferGo f nowMs fuel (attempt + 1) (some r)
        { result := rest.result, calls := rest.calls + 1
          delays := d :: rest.delays }
    | .err e =>
      if fuel = 0 then
        { result := .error e, calls := 1, delays := [] }
      else
        let d := getRetryDelayMs attempt none nowMs
        let rest := retryTransferGo f nowMs fuel (attempt + 1) last
        { result := rest.result, calls := rest.calls + 1
          delays := d :: rest.delays }

/-- retryTransfer (index.ts 112-138): the loop entered at attempt 1 with
the full budget of TRANSFER_RETRY_ATTEMPTS attempts and no response yet. -/
def retryTransfer (f : Nat → Attempt) (nowMs : Int) : RTState :=
  retryTransferGo f nowMs TRANSFER_RETRY_ATTEMPTS 1 none

/-- Delay policy as the specification sentence for the Retry-After branch
reads: the integer-seconds branch also falls through to the exponential
policy when the computed delay is non-positive.  Written from the spec
wording, for comparison with getRetryDelayMs. -/
def retryDelayClaimed (attempt : Nat) (response : Option Response)
    (nowMs : Int) : Int :=
  let fallback :=
    min (TRANSFER_RETRY_BASE_DELAY_MS * 2 ^ (attempt - 1))
      TRANSFER_RETRY_MAX_DELAY_MS
  match response with
  | none => fallback
  | some r =>
    if r.status = 429 then
      match r.retryAfter with
      | none => fallback
      | some h =>
        match h.num with
        | some seconds =>
          if 0 < seconds * 1000 then
            min (seconds * 1000) TRANSFER_RETRY_MAX_DELAY_MS
          else fallback
        | none =>
          match h.date with
          | none => fallback
          | some retryDate =>
            let delta := retryDate - nowMs
            if 0 < delta then min delta TRANSFER_RETRY_MAX_DELAY_MS
            else fallback
    else
      fallback

/-- Every makeRequest attempt the loop performs consumes fuel. -/
theorem retryTransferGo_calls_le (f : Nat → Attempt) (nowMs : Int) :
    ∀ fuel attempt last,
      (retryTransferGo f nowMs fuel attempt last).calls ≤ fuel := by
  intro fuel
  induction fuel with
  | zero => intro attempt last; simp [retryTransferGo]
  | succ n ih =>
    intro attempt last
    unfold retryTransferGo
    cases f attempt with
    | resp r =>
      dsimp only
      split
      · simp
      · have := ih (attempt + 1) (some r)
        simp
        omega
    | err e =>
      dsimp only
      split
      · simp
      · have := ih (attempt + 1) last
        simp
        omega

/-- With fuel left, the loop performs at least one makeRequest call. -/
theorem retryTransferGo_calls_pos (f : Nat → Attempt) (nowMs : Int)
    (fuel attempt : Nat) (last : Option Response) :
    1 ≤ (retryTransferGo f nowMs (fuel + 1) attempt last).calls := by
  unfold retryTransferGo
  cases f attempt with
  | resp r =>
    dsimp only
    split
    · simp
    · simp
  | err e =>
    dsimp only
    split
    · simp
    · simp

/-- With exactly one attempt left, the loop performs exactly one call. -/
theorem retryTransferGo_last_calls (f : Nat → Attempt) (nowMs : Int)
    (attempt : Nat) (last : Option Response) :
    (retryTransferGo f nowMs 1 attempt last).calls = 1 := by
  unfold retryTransferGo
  cases f attempt with
  | resp r => simp
  | err e => simp

/-- When an attempt yields a retryable non-ok response and fuel remains,
the loop sleeps and recurses with one less unit of fuel. -/
theorem retryTransferGo_resp_retry (f : Nat → Attempt) (nowMs : Int)
    (fuel attempt : Nat) (last : Option Response) (r : Response)
    (hf : f attempt = .resp r) (hs : shouldRetryTransfer r = true)
    (ho : r.ok = false) (hfuel : fuel ≠ 0) :
    retryTransferGo f nowMs (fuel + 1) attempt last =
      { result := (retryTransferGo f nowMs fuel (attempt + 1)
          (some r)).result
        calls := (retryTransferGo f nowMs fuel (attempt + 1)
          (some r)).calls + 1
        delays := getRetryDelayMs attempt (some r) nowMs ::
          (retryTransferGo f nowMs fuel (attempt + 1) (some r)).delays } := by
  conv_lhs => unfold retryTransferGo
  rw [hf]
  simp [hs, ho, hfuel]

/-- When an attempt throws and fuel remains, the loop sleeps and recurses
with one less unit of fuel, keeping the last response. -/
theorem retryTransferGo_err_retry (f : Nat → Attempt) (nowMs : Int)
    (fuel attempt : Nat) (last : Option Response) (e : String)
    (hf : f attempt = .err e) (hfuel : fuel ≠ 0) :
    retryTransferGo f nowMs (fuel + 1) attempt last =
      { result := (retryTransferGo f nowMs fuel (attempt + 1) last).result
        calls := (retryTransferGo f nowMs fuel (attempt + 1) last).calls + 1
        delays := getRetryDelayMs attempt none nowMs ::
          (retryTransferGo f nowMs fuel (attempt + 1) last).delays } := by
  conv_lhs => unfold retryTransferGo
  rw [hf]
  simp [hfuel]

/-- C1: for every stored credential, getAccessToken refreshes exactly when
expires_at ≤ now + 60; when expires_at > now + 60 it returns the stored
access token unchanged without invoking the refresh operation. -/
theorem getAccessToken_refresh_margin (t : Tokens) (now : Nat)
    (cid cs : String) (resp : Option RefreshResponse) (putOk : Bool) :
    ((getAccessToken (some t) now cid cs resp putOk).refreshInvoked = true ↔
      t.expires_at ≤ now + 60)
    ∧ (now + 60 < t.expires_at →
      getAccessToken (some t) now cid cs resp putOk =
        { result := some t.access_token, refreshInvoked := false
          written := none }) := by
  constructor
  · unfold getAccessToken
    by_cases h : now + 60 < t.expires_at
    · have h2 : ¬ (t.expires_at ≤ now + 60) := by omega
      simp [h, h2]
    · have h2 : t.expires_at ≤ now + 60 := by omega
      simp [h, h2]
      cases hr : refreshAccessToken cid cs t.refresh_token resp (some t)
          now with
      | error e => simp [hr]
      | ok nt =>
        cases hw : writeTokens nt putOk with
        | error e => simp [hr, hw]
        | ok raw => simp [hr, hw]
  · intro h
    unfold getAccessToken
    simp [h]

/-- C1 witness: a credential with more than 60 seconds of validity left is
returned unchanged and no refresh happens. -/
theorem getAccessToken_refresh_margin_witness :
    getAccessToken
        (some { access_token := "A", refresh_token := "R"
                expires_at := 1000 }) 0 "i" "s" none true =
      { result := some "A", refreshInvoked := false, written := none } :=
  (getAccessToken_refresh_margin
      { access_token := "A", refresh_token := "R", expires_at := 1000 }
      0 "i" "s" none true).2 (by decide)

/-- C2: spotifyFetch performs at most one refresh and at most one retry of
the original request; on a 401 with no stored credential, or with a
failing refresh, the original 401 response is returned unchanged. -/
theorem spotifyFetch_single_reauth (accessToken : Option String)
    (first : Response) (storedAt401 : Option Tokens) (now : Nat)
    (cid cs : String) (resp : Option RefreshResponse) (putOk : Bool)
    (retryResp : Response) :
    (spotifyFetch accessToken first storedAt401 now cid cs resp putOk
        retryResp).refreshCount ≤ 1
    ∧ (spotifyFetch accessToken first storedAt401 now cid cs resp putOk
        retryResp).retryCount ≤ 1
    ∧ (∀ a : String, accessToken = some a → first.status = 401 →
        storedAt401 = none →
        (spotifyFetch accessToken first storedAt401 now cid cs resp putOk
            retryResp).result = .ok first)
    ∧ (∀ (a : String) (t : Tokens) (e : String), accessToken = some a →
        first.status = 401 → storedAt401 = some t →
        refreshAccessToken cid cs t.refresh_token resp storedAt401 now =
          .error e →
        (spotifyFetch accessToken first storedAt401 now cid cs resp putOk
            retryResp).result = .ok first) := by
  refine ⟨?_, ?_, ?_, ?_⟩
  · unfold spotifyFetch
    cases accessToken with
    | none => simp
    | some a =>
      by_cases h : first.status = 401
      · simp [h]
        cases storedAt401 with
        | none => simp
        | some t =>
          cases hr : refreshAccessToken cid cs t.refresh_token resp
              (some t) now with
          | error e => simp [hr]
          | ok nt =>
            cases hw : writeTokens nt putOk with
            | error e => simp [hr, hw]
            | ok raw => simp [hr, hw]
      · simp [h]
  · unfold spotifyFetch
    cases accessToken with
    | none => simp
    | some a =>
      by_cases h : first.status = 401
      · simp [h]
        cases storedAt401 with
        | none => simp
        | some t =>
          cases hr : refreshAccessToken cid cs t.refresh_token resp
              (some t) now with
          | error e => simp [hr]
          | ok nt =>
            cases hw : writeTokens nt putOk with
            | error e => simp [hr, hw]
            | ok raw => simp [hr, hw]
      · simp [h]
  · intro a ha h401 hs
    subst ha; subst hs
    simp [spotifyFetch, h401]
  · intro a t e ha h401 hs hfail
    subst ha; subst hs
    simp [spotifyFetch, h401, hfail]

/-- C2 witness: a 401 with no stored credential is returned unchanged. -/
theorem spotifyFetch_single_reauth_witness :
    (spotifyFetch (some "A") { status := 401, retryAfter := none } none 0
        "i" "s" none true { status := 200, retryAfter := none }).result =
      .ok { status := 401, retryAfter := none } :=
  (spotifyFetch_single_reauth (some "A")
      { status := 401, retryAfter := none } none 0 "i" "s" none true
      { status := 200, retryAfter := none }).2.2.1 "A" rfl rfl rfl

/-- C4: when the issuer response omits refresh_token, the credential built
by refreshAccessToken carries forward the refresh token stored before the
refresh (stored credentials read through the store boundary always have a
nonempty refresh token). -/
theorem refreshAccessToken_carry_forward (cid cs rt : String)
    (data : RefreshResponse) (t nt : Tokens) (now : Nat)
    (homit : data.refresh_token = none)
    (hne : t.refresh_token ≠ "")
    (hok : refreshAccessToken cid cs rt (some data) (some t) now = .ok nt) :
    nt.refresh_token = t.refresh_token := by
  unfold refreshAccessToken at hok
  split at hok
  · exact absurd hok (by simp)
  · split at hok
    · exact absurd hok (by simp)
    · split at hok
      · exact absurd hok (by simp)
      · rename_i heq hnok
        injection heq with he
        subst he
        have h := Except.ok.inj hok
        rw [← h]
        simp [homit, jsOrStr, hne]

/-- C4 witness: a refresh response without refresh_token keeps the stored
one. -/
theorem refreshAccessToken_carry_forward_witness :
    (refreshAccessToken "i" "s" "R"
        (some { ok := true, access_token := "A2", refresh_token := none
                expires_in := none })
        (some { access_token := "A1", refresh_token := "R"
                expires_at := 5 }) 1000 = .ok
        { access_token := "A2", refresh_token := "R"
          expires_at := 4600 })
    ∧ ("R" : String) = "R" :=
  ⟨by decide, refreshAccessToken_carry_forward "i" "s" "R"
      { ok := true, access_token := "A2", refresh_token := none
        expires_in := none }
      { access_token := "A1", refresh_token := "R", expires_at := 5 }
      { access_token := "A2", refresh_token := "R", expires_at := 4600 }
      1000 rfl (by decide) (by decide)⟩

/-- C7: when the refresh operation fails on a stale credential,
getAccessToken persists nothing and returns absent instead of raising. -/
theorem getAccessToken_refresh_failure (t : Tokens) (now : Nat)
    (cid cs : String) (resp : Option RefreshResponse) (putOk : Bool)
    (e : String)
    (hstale : t.expires_at ≤ now + 60)
    (hfail : refreshAccessToken cid cs t.refresh_token resp (some t) now =
      .error e) :
    getAccessToken (some t) now cid cs resp putOk =
      { result := none, refreshInvoked := true, written := none } := by
  unfold getAccessToken
  have h : ¬ (now + 60 < t.expires_at) := by omega
  simp [h, hfail]

/-- C7 witness: missing client credentials make the refresh fail and the
stale credential call return absent with nothing written. -/
theorem getAccessToken_refresh_failure_witness :
    getAccessToken
        (some { access_token := "A", refresh_token := "R"
                expires_at := 50 }) 0 "" "s" none true =
      { result := none, refreshInvoked := true, written := none } :=
  getAccessToken_refresh_failure
    { access_token := "A", refresh_token := "R", expires_at := 50 }
    0 "" "s" none true "Spotify client credentials not configured"
    (by decide) (by decide)

/-- C8 counterexample: an issuer response that supplies expires_in = 0 is
treated as if the lifetime were omitted — the persisted expiry is
now + 3600, not now + 0 as the claim states for a supplied lifetime. -/
theorem expiry_zero_lifetime_counterexample :
    refreshAccessToken "i" "s" "R"
        (some { ok := true, access_token := "A2", refresh_token := none
                expires_in := some 0 })
        (some { access_token := "A1", refresh_token := "R"
                expires_at := 5 }) 1000 =
      .ok { access_token := "A2", refresh_token := "R"
            expires_at := 4600 }
    ∧ (4600 : Nat) ≠ 1000 + 0 := by
  exact ⟨by decide, by decide⟩

/-- C8 amended: the new expiry is now + expires_in when the issuer supplies
a nonzero lifetime and now + 3600 when the issuer omits it or reports 0
(the code treats a falsy expires_in as absent).  Holds for both the code
exchange and the refresh. -/
theorem expiry_computation (cid cs rt : String) (rr : RefreshResponse)
    (er : ExchangeResponse) (ct : Option Tokens) (now : Nat)
    (nt mt : Tokens)
    (h1 : refreshAccessToken cid cs rt (some rr) ct now = .ok nt)
    (h2 : exchangeCodeForTokens cid cs (some er) now = .ok mt) :
    ((∀ n : Nat, rr.expires_in = some n → n ≠ 0 → nt.expires_at = now + n)
      ∧ ((rr.expires_in = none ∨ rr.expires_in = some 0) →
          nt.expires_at = now + 3600))
    ∧ ((∀ n : Nat, er.expires_in = some n → n ≠ 0 → mt.expires_at = now + n)
      ∧ ((er.expires_in = none ∨ er.expires_in = some 0) →
          mt.expires_at = now + 3600)) := by
  have hnt : nt.expires_at = now + jsOrNat rr.expires_in 3600 := by
    simp only [refreshAccessToken] at h1
    split at h1
    · exact absurd h1 (by simp)
    · split at h1
      · exact absurd h1 (by simp)
      · have h := Except.ok.inj h1
        rw [← h]
  have hmt : mt.expires_at = now + jsOrNat er.expires_in 3600 := by
    simp only [exchangeCodeForTokens] at h2
    split at h2
    · exact absurd h2 (by simp)
    · split at h2
      · exact absurd h2 (by simp)
      · have h := Except.ok.inj h2
        rw [← h]
  refine ⟨⟨?_, ?_⟩, ⟨?_, ?_⟩⟩
  · intro n hn hnz
    rw [hnt, hn]
    simp [jsOrNat, hnz]
  · intro hcase
    rcases hcase with hc | hc <;> rw [hnt, hc] <;> simp [jsOrNat]
  · intro n hn hnz
    rw [hmt, hn]
    simp [jsOrNat, hnz]
  · intro hcase
    rcases hcase with hc | hc <;> rw [hmt, hc] <;> simp [jsOrNat]

/-- C8 witness: a supplied nonzero lifetime of 120 seconds gives expiry
now + 120 for both operations. -/
theorem expiry_computation_witness :
    ((120 : Nat) ≠ 0 → (1120 : Nat) = 1000 + 120) ∧
      ((120 : Nat) ≠ 0 → (1120 : Nat) = 1000 + 120) := by
  have h := expiry_computation "i" "s" "R"
    { ok := true, access_token := "A2", refresh_token := none
      expires_in := some 120 }
    { ok := true, access_token := "B", refresh_token := "BR"
      expires_in := some 120 }
    none 1000
    { access_token := "A2", refresh_token := "R", expires_at := 1120 }
    { access_token := "B", refresh_token := "BR", expires_at := 1120 }
    (by decide) (by decide)
  exact ⟨fun hz => h.1.1 120 rfl hz, fun hz => h.2.1 120 rfl hz⟩

/-- C9: a credential accepted by writeTokens is reconstructed exactly by an
immediately following readTokens — all three fields preserved and the read
does not return absent. -/
theorem tokens_roundtrip (t : Tokens) (putOk : Bool) (raw : RawTokens)
    (h : writeTokens t putOk = .ok raw) :
    readTokens (some raw) = some t := by
  by_cases hv : t.access_token = "" ∨ t.refresh_token = "" ∨
      t.expires_at = 0
  · have : writeTokens t putOk = .error "Failed to save tokens" := by
      unfold writeTokens
      rcases hv with h1 | h1 | h1 <;> simp [h1]
    rw [this] at h
    exact absurd h (by simp)
  · push_neg at hv
    obtain ⟨ha, hrt, he⟩ := hv
    by_cases hp : putOk
    · have hw : raw =
          { access_token := some t.access_token
            refresh_token := some t.refresh_token
            expires_at := some t.expires_at } := by
        unfold writeTokens at h
        rw [if_neg (by simp [ha, hrt, he]), if_pos hp] at h
        exact (Except.ok.inj h).symm
      subst hw
      simp [readTokens, jsTruthyStr, jsTruthyNat, ha, hrt, he]
    · have : writeTokens t putOk = .error "Failed to save tokens" := by
        unfold writeTokens
        rw [if_neg (by simp [ha, hrt, he]), if_neg hp]
      rw [this] at h
      exact absurd h (by simp)

/-- C9 witness: a concrete credential survives the write-read round trip. -/
theorem tokens_roundtrip_witness :
    readTokens (some { access_token := some "A", refresh_token := some "R"
                       expires_at := some 7 }) =
      some { access_token := "A", refresh_token := "R", expires_at := 7 } :=
  tokens_roundtrip
    { access_token := "A", refresh_token := "R", expires_at := 7 } true
    { access_token := some "A", refresh_token := some "R"
      expires_at := some 7 }
    (by decide)

/-- C10: the store boundary rejects falsy fields in both directions —
writeTokens throws on a credential with an empty access_token, empty
refresh_token or zero expires_at; readTokens returns absent for a raw
record with a missing or falsy field; and any credential readTokens does
return has all three fields truthy. -/
theorem store_boundary_falsy (t : Tokens) (putOk : Bool) (raw : RawTokens)
    (d : Option RawTokens) (u : Tokens)
    (ht : t.access_token = "" ∨ t.refresh_token = "" ∨ t.expires_at = 0)
    (hr : raw.access_token = none ∨ raw.access_token = some "" ∨
      raw.refresh_token = none ∨ raw.refresh_token = some "" ∨
      raw.expires_at = none ∨ raw.expires_at = some 0) :
    writeTokens t putOk = .error "Failed to save tokens"
    ∧ readTokens (some raw) = none
    ∧ (readTokens d = some u →
        u.access_token ≠ "" ∧ u.refresh_token ≠ "" ∧ u.expires_at ≠ 0) := by
  refine ⟨?_, ?_, ?_⟩
  · unfold writeTokens
    rcases ht with h1 | h1 | h1 <;> simp [h1]
  · unfold readTokens
    rcases hr with h1 | h1 | h1 | h1 | h1 | h1 <;>
      simp [h1, jsTruthyStr, jsTruthyNat]
  · intro hread
    cases d with
    | none => exact absurd hread (by simp [readTokens])
    | some r =>
      simp only [readTokens] at hread
      split at hread
      · rename_i hcond
        simp only [Bool.and_eq_true] at hcond
        obtain ⟨⟨hca, hcr⟩, hce⟩ := hcond
        have hu := Option.some.inj hread
        rw [← hu]
        cases har : r.access_token with
        | none => rw [har] at hca; simp [jsTruthyStr] at hca
        | some sa =>
          cases hrr : r.refresh_token with
          | none => rw [hrr] at hcr; simp [jsTruthyStr] at hcr
          | some sr =>
            cases hee : r.expires_at with
            | none => rw [hee] at hce; simp [jsTruthyNat] at hce
            | some ne =>
              rw [har] at hca
              rw [hrr] at hcr
              rw [hee] at hce
              simp [jsTruthyStr] at hca
              simp [jsTruthyStr] at hcr
              simp [jsTruthyNat] at hce
              simp [har, hrr, hee, hca, hcr, hce]
      · exact absurd hread (by simp)

/-- C10 witness: a record with expires_at 0 is rejected on write and a raw
record with an empty refresh_token reads back as absent, while a concrete
valid read yields truthy fields. -/
theorem store_boundary_falsy_witness :
    writeTokens ⟨"A", "R", 0⟩ true = .error "Failed to save tokens"
    ∧ readTokens (some ⟨some "A", some "", some 7⟩) = none
    ∧ (readTokens (some ⟨some "A", some "R", some 7⟩) =
        some ⟨"A", "R", 7⟩ →
        ("A" : String) ≠ "" ∧ ("R" : String) ≠ "" ∧ (7 : Nat) ≠ 0) :=
  store_boundary_falsy ⟨"A", "R", 0⟩ true ⟨some "A", some "", some 7⟩
    (some ⟨some "A", some "R", some 7⟩) ⟨"A", "R", 7⟩
    (Or.inr (Or.inr rfl))
    (Or.inr (Or.inr (Or.inr (Or.inl rfl))))

/-- C3: retryTransfer invokes makeRequest at most 3 times; the retryable
statuses are exactly 404, 429 and 500 through 504; a non-retryable
response is returned immediately after a single attempt; a retryable
non-ok response with budget remaining triggers a further attempt. -/
theorem retryTransfer_attempt_budget (f : Nat → Attempt) (nowMs : Int)
    (r : Response) :
    (retryTransfer f nowMs).calls ≤ 3
    ∧ (shouldRetryTransfer r = true ↔
        (r.status = 404 ∨ r.status = 429 ∨
          (500 ≤ r.status ∧ r.status ≤ 504)))
    ∧ (f 1 = .resp r → shouldRetryTransfer r = false →
        (retryTransfer f nowMs).result = .ok r ∧
          (retryTransfer f nowMs).calls = 1)
    ∧ (f 1 = .resp r → shouldRetryTransfer r = true → r.ok = false →
        2 ≤ (retryTransfer f nowMs).calls) := by
  refine ⟨?_, ?_, ?_, ?_⟩
  · exact retryTransferGo_calls_le f nowMs 3 1 none
  · unfold shouldRetryTransfer
    split
    · rename_i hc
      simp only [Bool.or_eq_true, decide_eq_true_eq] at hc
      simp
      tauto
    · rename_i hc
      simp only [Bool.or_eq_true, decide_eq_true_eq] at hc
      push_neg at hc
      simp
      omega
  · intro h1 hsr
    have hgo : retryTransferGo f nowMs 3 1 none =
        { result := .ok r, calls := 1, delays := [] } := by
      unfold retryTransferGo
      rw [h1]
      simp [hsr]
    rw [retryTransfer, TRANSFER_RETRY_ATTEMPTS, hgo]
    exact ⟨rfl, rfl⟩
  · intro h1 hsr hok
    have hgo : retryTransferGo f nowMs 3 1 none =
        { result := (retryTransferGo f nowMs 2 2 (some r)).result
          calls := (retryTransferGo f nowMs 2 2 (some r)).calls + 1
          delays := getRetryDelayMs 1 (some r) nowMs ::
            (retryTransferGo f nowMs 2 2 (some r)).delays } :=
      retryTransferGo_resp_retry f nowMs 2 1 none r h1 hsr hok
        (by decide)
    have hpos : 1 ≤ (retryTransferGo f nowMs 2 2 (some r)).calls :=
      retryTransferGo_calls_pos f nowMs 1 2 (some r)
    rw [retryTransfer, TRANSFER_RETRY_ATTEMPTS, hgo]
    simp only
    omega

/-- C3 witness: a 400 response is returned after one attempt, and a 404
first attempt leads to a second one. -/
theorem retryTransfer_attempt_budget_witness :
    (retryTransfer (fun _ => .resp ⟨400, none⟩) 0).result =
      .ok ⟨400, none⟩
    ∧ (retryTransfer (fun _ => .resp ⟨400, none⟩) 0).calls = 1
    ∧ 2 ≤ (retryTransfer (fun _ => .resp ⟨404, none⟩) 0).calls := by
  refine ⟨?_, ?_, ?_⟩
  · exact ((retryTransfer_attempt_budget (fun _ => .resp ⟨400, none⟩) 0
      ⟨400, none⟩).2.2.1 rfl (by decide)).1
  · exact ((retryTransfer_attempt_budget (fun _ => .resp ⟨400, none⟩) 0
      ⟨400, none⟩).2.2.1 rfl (by decide)).2
  · exact (retryTransfer_attempt_budget (fun _ => .resp ⟨404, none⟩) 0
      ⟨404, none⟩).2.2.2 rfl (by decide) (by decide)

/-- C5 counterexample: on a 429 whose Retry-After parses to 0 seconds the
code returns a 0 ms delay instead of falling through to the exponential
policy (350 ms at attempt 1) as the claim requires for a non-positive
computed delay. -/
theorem getRetryDelayMs_nonpositive_counterexample :
    getRetryDelayMs 1 (some ⟨429, some ⟨some 0, none⟩⟩) 0 = 0
    ∧ retryDelayClaimed 1 (some ⟨429, some ⟨some 0, none⟩⟩) 0 = 350
    ∧ (0 : Int) ≠ 350 := by
  refine ⟨by decide, by decide, by decide⟩

/-- C5 amended: the delay before attempt n+1 is the exponential policy
350ms * 2^(n-1) clamped to 2000 ms, except on a 429 carrying a Retry-After
header: if the header parses as integer seconds the delay is
seconds * 1000 clamped to 2000 ms with no positivity check; else if it
parses as an HTTP date the delay is date - now clamped to 2000 ms when
positive, falling through to the exponential policy otherwise; and when
neither parse succeeds the exponential policy applies. -/
theorem getRetryDelayMs_policy (attempt : Nat) (nowMs : Int)
    (r : Response) (h : RAHeader) (s d : Int) :
    getRetryDelayMs attempt none nowMs =
      min (350 * 2 ^ (attempt - 1)) 2000
    ∧ (r.status ≠ 429 → getRetryDelayMs attempt (some r) nowMs =
        min (350 * 2 ^ (attempt - 1)) 2000)
    ∧ (r.status = 429 → r.retryAfter = none →
        getRetryDelayMs attempt (some r) nowMs =
          min (350 * 2 ^ (attempt - 1)) 2000)
    ∧ (r.status = 429 → r.retryAfter = some h → h.num = some s →
        getRetryDelayMs attempt (some r) nowMs = min (s * 1000) 2000)
    ∧ (r.status = 429 → r.retryAfter = some h → h.num = none →
        h.date = some d → 0 < d - nowMs →
        getRetryDelayMs attempt (some r) nowMs = min (d - nowMs) 2000)
    ∧ (r.status = 429 → r.retryAfter = some h → h.num = none →
        h.date = some d → ¬ 0 < d - nowMs →
        getRetryDelayMs attempt (some r) nowMs =
          min (350 * 2 ^ (attempt - 1)) 2000)
    ∧ (r.status = 429 → r.retryAfter = some h → h.num = none →
        h.date = none →
        getRetryDelayMs attempt (some r) nowMs =
          min (350 * 2 ^ (attempt - 1)) 2000) := by
  refine ⟨?_, ?_, ?_, ?_, ?_, ?_, ?_⟩
  · simp [getRetryDelayMs, TRANSFER_RETRY_BASE_DELAY_MS
          , TRANSFER_RETRY_MAX_DELAY_MS]
  · intro hs
    simp [getRetryDelayMs, TRANSFER_RETRY_BASE_DELAY_MS
          , TRANSFER_RETRY_MAX_DELAY_MS, hs]
  · intro hs hra
    simp [getRetryDelayMs, TRANSFER_RETRY_BASE_DELAY_MS
          , TRANSFER_RETRY_MAX_DELAY_MS, hs, hra]
  · intro hs hra hn
    simp [getRetryDelayMs, TRANSFER_RETRY_MAX_DELAY_MS, hs, hra, hn]
  · intro hs hra hn hd hpos
    simp [getRetryDelayMs, TRANSFER_RETRY_MAX_DELAY_MS, hs, hra, hn, hd,
      hpos]
  · intro hs hra hn hd hpos
    simp [getRetryDelayMs, TRANSFER_RETRY_BASE_DELAY_MS
          , TRANSFER_RETRY_MAX_DELAY_MS, hs, hra, hn, hd, hpos]
  · intro hs hra hn hd
    simp [getRetryDelayMs, TRANSFER_RETRY_BASE_DELAY_MS
          , TRANSFER_RETRY_MAX_DELAY_MS, hs, hra, hn, hd]

/-- C5 witness: Retry-After of 4 seconds on a 429 is clamped to 2000 ms. -/
theorem getRetryDelayMs_policy_witness :
    getRetryDelayMs 1 (some ⟨429, some ⟨some 4, none⟩⟩) 0 = 2000 := by
  have h := (getRetryDelayMs_policy 1 0 ⟨429, some ⟨some 4, none⟩⟩
      ⟨some 4, none⟩ 4 0).2.2.2.1 rfl rfl rfl
  rw [h]
  decide

/-- C6: when the budget is exhausted the last received response is
returned; when every attempt threw, the last error propagates; an error on
a non-final attempt is retried and the run continues to the full budget. -/
theorem retryTransfer_exhaustion (f : Nat → Attempt) (nowMs : Int)
    (r1 r2 r3 : Response) (e1 e2 e3 : String) :
    (f 1 = .resp r1 → shouldRetryTransfer r1 = true → r1.ok = false →
      f 2 = .resp r2 → shouldRetryTransfer r2 = true → r2.ok = false →
      f 3 = .resp r3 →
      (retryTransfer f nowMs).result = .ok r3 ∧
        (retryTransfer f nowMs).calls = 3)
    ∧ (f 1 = .err e1 → f 2 = .err e2 → f 3 = .err e3 →
      (retryTransfer f nowMs).result = .error e3 ∧
        (retryTransfer f nowMs).calls = 3)
    ∧ (f 1 = .err e1 → 2 ≤ (retryTransfer f nowMs).calls)
    ∧ (f 1 = .resp r1 → shouldRetryTransfer r1 = true → r1.ok = false →
      f 2 = .err e2 → (retryTransfer f nowMs).calls = 3) := by
  refine ⟨?_, ?_, ?_, ?_⟩
  · intro h1 hs1 ho1 h2 hs2 ho2 h3
    have g3 : retryTransferGo f nowMs 1 3 (some r2) =
        { result := .ok r3, calls := 1, delays := [] } := by
      unfold retryTransferGo
      rw [h3]
      simp
    have g2 : (retryTransferGo f nowMs 2 2 (some r1)).result = .ok r3 ∧
        (retryTransferGo f nowMs 2 2 (some r1)).calls = 2 := by
      unfold retryTransferGo
      rw [h2]
      simp [hs2, ho2, g3]
    have g1 : (retryTransferGo f nowMs 3 1 none).result = .ok r3 ∧
        (retryTransferGo f nowMs 3 1 none).calls = 3 := by
      unfold retryTransferGo
      rw [h1]
      simp [hs1, ho1]
      exact ⟨g2.1, g2.2⟩
    exact ⟨g1.1, g1.2⟩
  · intro h1 h2 h3
    have g3 : retryTransferGo f nowMs 1 3 none =
        { result := .error e3, calls := 1, delays := [] } := by
      unfold retryTransferGo
      rw [h3]
      simp
    have g2 : (retryTransferGo f nowMs 2 2 none).result = .error e3 ∧
        (retryTransferGo f nowMs 2 2 none).calls = 2 := by
      unfold retryTransferGo
      rw [h2]
      simp [g3]
    have g1 : (retryTransferGo f nowMs 3 1 none).result = .error e3 ∧
        (retryTransferGo f nowMs 3 1 none).calls = 3 := by
      unfold retryTransferGo
      rw [h1]
      simp
      exact ⟨g2.1, g2.2⟩
    exact ⟨g1.1, g1.2⟩
  · intro h1
    have hpos : 1 ≤ (retryTransferGo f nowMs 2 2 none).calls :=
      retryTransferGo_calls_pos f nowMs 1 2 none
    have g1 : retryTransferGo f nowMs 3 1 none =
        { result := (retryTransferGo f nowMs 2 2 none).result
          calls := (retryTransferGo f nowMs 2 2 none).calls + 1
          delays := getRetryDelayMs 1 none nowMs ::
            (retryTransferGo f nowMs 2 2 none).delays } :=
      retryTransferGo_err_retry f nowMs 2 1 none e1 h1 (by decide)
    rw [retryTransfer, TRANSFER_RETRY_ATTEMPTS, g1]
    simp only
    omega
  · intro h1 hs1 ho1 h2
    have g3 : (retryTransferGo f nowMs 1 3 (some r1)).calls = 1 :=
      retryTransferGo_last_calls f nowMs 3 (some r1)
    have g2 : (retryTransferGo f nowMs 2 2 (some r1)).calls = 2 := by
      unfold retryTransferGo
      rw [h2]
      simp [g3]
    have g1 : (retryTransferGo f nowMs 3 1 none).calls = 3 := by
      unfold retryTransferGo
      rw [h1]
      simp [hs1, ho1, g2]
    exact g1

/-- C6 witness: three straight 404 responses exhaust the budget and the
last one is returned; three thrown errors propagate the last error; an
error on attempt 1 is retried. -/
theorem retryTransfer_exhaustion_witness :
    ((retryTransfer (fun _ => .resp ⟨404, none⟩) 0).result =
        .ok ⟨404, none⟩
      ∧ (retryTransfer (fun _ => .resp ⟨404, none⟩) 0).calls = 3)
    ∧ ((retryTransfer (fun _ => .err "boom") 0).result = .error "boom"
      ∧ (retryTransfer (fun _ => .err "boom") 0).calls = 3)
    ∧ 2 ≤ (retryTransfer (fun _ => .err "boom") 0).calls := by
  refine ⟨?_, ?_, ?_⟩
  · exact (retryTransfer_exhaustion (fun _ => .resp ⟨404, none⟩) 0
      ⟨404, none⟩ ⟨404, none⟩ ⟨404, none⟩ "" "" "").1 rfl (by decide)
      (by decide) rfl (by decide) (by decide) rfl
  · exact (retryTransfer_exhaustion (fun _ => .err "boom") 0
      ⟨404, none⟩ ⟨404, none⟩ ⟨404, none⟩ "boom" "boom" "boom").2.1
      rfl rfl rfl
  · exact (retryTransfer_exhaustion (fun _ => .err "boom") 0
      ⟨404, none⟩ ⟨404, none⟩ ⟨404, none⟩ "boom" "boom" "boom").2.2.1 rfl

end SpotifyTransfer
